import Mathlib

/-!
Shallow embedding of `src/App.js` (a Firebase-backed to-do list React app).

The app's state (React `useState` hooks) is modelled as an explicit record
`AppState`.  Each event handler / callback of the source becomes a pure Lean
function from the current state (plus the event's inputs, plus the outcome of
the awaited remote call where the source branches on it) to the next state
together with the list of remote requests it issues.  Firestore paths are
lists of path segments, one definition per call site of the source.
-/

namespace TodoApp

/-- Whitespace predicate used by JavaScript's `String.prototype.trim`;
modelled by Lean's `Char.isWhitespace`. -/
def jsWhitespaceChar (c : Char) : Bool := c.isWhitespace

/-- Trimming of a character list: drop the leading and the trailing
whitespace run, as JavaScript's `trim` does. -/
def trimChars (l : List Char) : List Char :=
  (l.dropWhile jsWhitespaceChar).rdropWhile jsWhitespaceChar

/-- Embedding of `newTodo.trim()` from `src/App.js` line 142. -/
def jsTrim (s : String) : String := ⟨trimChars s.data⟩

/-- Fields of a to-do document as stored in Firestore:
`{ text, completed }` (`src/App.js` lines 147-150). -/
structure TodoData where
  text : String
  completed : Bool
deriving DecidableEq

/-- One document as delivered by a `querySnapshot`: the document id plus the
document data (`src/App.js` lines 122-124). -/
structure SnapshotDoc where
  id : String
  data : TodoData
deriving DecidableEq

/-- One entry of the local mirror: `{ id: doc.id, ...doc.data() }`
(`src/App.js` line 124). -/
structure Todo where
  id : String
  text : String
  completed : Bool
deriving DecidableEq

/-- Spreading a snapshot document into a mirror entry
(`{ id: doc.id, ...doc.data() }`, `src/App.js` line 124). -/
def docToTodo (d : SnapshotDoc) : Todo :=
  ⟨d.id, d.data.text, d.data.completed⟩

/-- The React state of the `App` component (`src/App.js` lines 78-82). -/
structure AppState where
  todos : List Todo
  newTodo : String
  loading : Bool
  userId : Option String
  authReady : Bool
deriving DecidableEq

/-- Payload of an `updateDoc` call; every document field is optional so that
a payload can mention only some fields.  The source's toggle payload is
`{ completed: !currentCompleted }` and mentions no other field. -/
structure UpdatePayload where
  text : Option String
  completed : Option Bool
deriving DecidableEq

/-- A remote mutation request issued against the document store. -/
inductive Request where
  | create (collectionPath : List String) (fields : TodoData)
  | update (docPath : List String) (fields : UpdatePayload)
  | deleteReq (docPath : List String)
deriving DecidableEq

/-- A sign-in request issued against the auth provider
(`src/App.js` lines 95-99). -/
inductive AuthRequest where
  | signInWithCustomToken (token : String)
  | signInAnonymously
deriving DecidableEq

/-- Collection path built by the data-fetching effect:
`collection(db, 'artifacts', appId, 'users', userId, 'todos')`
(`src/App.js` line 117). -/
def subscribeCollectionPath (appId uid : String) : List String :=
  ["artifacts", appId, "users", uid, "todos"]

/-- Collection path built by `handleAddTodo`:
`collection(db, 'artifacts', appId, 'users', userId, 'todos')`
(`src/App.js` line 147). -/
def addCollectionPath (appId uid : String) : List String :=
  ["artifacts", appId, "users", uid, "todos"]

/-- Document path built by `handleToggleTodo`:
`doc(db, 'artifacts', appId, 'users', userId, 'todos', id)`
(`src/App.js` line 162). -/
def toggleDocPath (appId uid id : String) : List String :=
  ["artifacts", appId, "users", uid, "todos", id]

/-- Document path built by `handleDeleteTodo`:
`doc(db, 'artifacts', appId, 'users', userId, 'todos', id)`
(`src/App.js` line 176). -/
def deleteDocPath (appId uid id : String) : List String :=
  ["artifacts", appId, "users", uid, "todos", id]

/-- Guard of the data-fetching effect (`src/App.js` lines 113-120):
`if (!authReady || !userId) return;` and otherwise it subscribes on the
collection path of line 117.  Returns the path the subscription is opened
on, or `none` when the effect bails out. -/
def dataFetchSubscription (appId : String) (s : AppState) : Option (List String) :=
  if s.authReady then s.userId.map (fun uid => subscribeCollectionPath appId uid)
  else none

/-- Accumulation of `querySnapshot.forEach((doc) => todosData.push(...))`
(`src/App.js` lines 121-125): starting from the empty array, each delivered
document is pushed at the end. -/
def snapshotTodosData (docs : List SnapshotDoc) : List Todo :=
  docs.foldl (fun acc d => acc ++ [docToTodo d]) []

/-- The snapshot success callback (`src/App.js` lines 120-127):
`setTodos(todosData); setLoading(false);`. -/
def onSnapshotNext (s : AppState) (docs : List SnapshotDoc) : AppState :=
  { s with todos := snapshotTodosData docs, loading := false }

/-- The snapshot error callback (`src/App.js` lines 128-131): the error is
logged and `setLoading(false)` runs; no other state changes and no request
of any kind is issued (in particular no re-subscription). -/
def onSnapshotError (s : AppState) : AppState × List Request :=
  ({ s with loading := false }, [])

/-- Embedding of `handleAddTodo` (`src/App.js` lines 140-156).
`addDocSucceeds` is the outcome of the awaited `addDoc` call: on success the
input field is cleared (`setNewTodo('')`); on failure the exception is
caught and logged, and no state changes. -/
def handleAddTodo (appId : String) (s : AppState) (addDocSucceeds : Bool) :
    AppState × List Request :=
  let text := jsTrim s.newTodo
  if text = "" then (s, [])
  else
    match s.userId with
    | none => (s, [])
    | some uid =>
      let req : Request := .create (addCollectionPath appId uid)
        { text := text, completed := false }
      if addDocSucceeds then ({ s with newTodo := "" }, [req])
      else (s, [req])

/-- Embedding of `handleToggleTodo` (`src/App.js` lines 160-171).
Whether the awaited `updateDoc` succeeds or throws (caught and logged), the
local state is unchanged, so no outcome parameter is needed. -/
def handleToggleTodo (appId : String) (s : AppState) (id : String)
    (currentCompleted : Bool) : AppState × List Request :=
  match s.userId with
  | none => (s, [])
  | some uid =>
    (s, [Request.update (toggleDocPath appId uid id)
      { text := none, completed := some (!currentCompleted) }])

/-- Embedding of `handleDeleteTodo` (`src/App.js` lines 174-183).
Whether the awaited `deleteDoc` succeeds or throws (caught and logged), the
local state is unchanged. -/
def handleDeleteTodo (appId : String) (s : AppState) (id : String) :
    AppState × List Request :=
  match s.userId with
  | none => (s, [])
  | some uid => (s, [Request.deleteReq (deleteDocPath appId uid id)])

/-- Embedding of the `onAuthStateChanged` callback (`src/App.js` lines
87-105).  `user` is the identity reported by the notification,
`initialAuthToken` the optional pre-issued token, and `signInFails` the
outcome of the single awaited sign-in call in the no-identity branch: on
failure the exception is caught, logged, and `setAuthReady(true)` runs; on
success this callback changes no state (a later notification reports the
signed-in user). -/
def onAuthStateChangedCallback (s : AppState) (user : Option String)
    (initialAuthToken : Option String) (signInFails : Bool) :
    AppState × List AuthRequest :=
  match user with
  | some uid => ({ s with userId := some uid, authReady := true }, [])
  | none =>
    let req : AuthRequest :=
      match initialAuthToken with
      | some t => .signInWithCustomToken t
      | none => .signInAnonymously
    if signInFails then ({ s with authReady := true }, [req])
    else (s, [req])

/-! Helper lemmas -/

/-- Pushing each mapped element onto an accumulator is appending the map. -/
theorem foldl_push_eq_append (docs : List SnapshotDoc) (acc : List Todo) :
    docs.foldl (fun a d => a ++ [docToTodo d]) acc = acc ++ docs.map docToTodo := by
  induction docs generalizing acc with
  | nil => simp
  | cons d ds ih => simp [ih]

/-- The snapshot callback's accumulated array is the in-order image of the
delivered documents. -/
theorem snapshotTodosData_eq_map (docs : List SnapshotDoc) :
    snapshotTodosData docs = docs.map docToTodo := by
  simp [snapshotTodosData, foldl_push_eq_append]

/-- Trimming a character list twice is the same as trimming it once. -/
theorem trimChars_idem (l : List Char) : trimChars (trimChars l) = trimChars l := by
  unfold trimChars
  have h1 : (l.dropWhile jsWhitespaceChar).rdropWhile jsWhitespaceChar <+:
      l.dropWhile jsWhitespaceChar := List.rdropWhile_prefix _ _
  have h2 : ((l.dropWhile jsWhitespaceChar).rdropWhile jsWhitespaceChar).dropWhile
      jsWhitespaceChar = (l.dropWhile jsWhitespaceChar).rdropWhile jsWhitespaceChar := by
    rw [List.dropWhile_eq_self_iff]
    intro hl
    have hlen : 0 < (l.dropWhile jsWhitespaceChar).length :=
      lt_of_lt_of_le hl h1.length_le
    rw [List.IsPrefix.get_eq h1 hl]
    exact List.dropWhile_get_zero_not jsWhitespaceChar l hlen
  rw [h2]
  exact List.rdropWhile_idempotent _ _

/-- Trimming a string twice is the same as trimming it once. -/
theorem jsTrim_idem (s : String) : jsTrim (jsTrim s) = jsTrim s :=
  congrArg String.mk (trimChars_idem s.data)

/-! Claim theorems -/

/-- C1: for every snapshot notification, the local mirror becomes exactly the
delivered items (each the document's fields plus its id): it equals their
in-order image, membership in the mirror is membership in the delivered set
(order-independent set equality), and the result does not depend on the
previous mirror content (full replace, not merge). -/
theorem c1_snapshot_full_replace (s : AppState) (docs : List SnapshotDoc) :
    (onSnapshotNext s docs).todos = docs.map docToTodo
    ∧ (∀ t : Todo, t ∈ (onSnapshotNext s docs).todos ↔ ∃ d ∈ docs, docToTodo d = t)
    ∧ ∀ s2 : AppState, (onSnapshotNext s2 docs).todos = (onSnapshotNext s docs).todos := by
  refine ⟨?_, ?_, ?_⟩ <;> simp [onSnapshotNext, snapshotTodosData_eq_map]

/-- C2: with an identity present, `handleToggleTodo` leaves the state
unchanged and issues exactly one update request whose only field is
`completed`, set to the negation of `currentCompleted`; the request depends
only on the arguments, never on the remote state. -/
theorem c2_toggle_flips (appId : String) (s : AppState) (uid id : String)
    (cc : Bool) (h : s.userId = some uid) :
    handleToggleTodo appId s id cc =
      (s, [Request.update (toggleDocPath appId uid id) ⟨none, some (!cc)⟩]) := by
  simp [handleToggleTodo, h]

/-- C2 witness: `toggle("x1singleUnder", true)` with identity `"u1"` issues
exactly the update `{completed: false}`. -/
theorem c2_toggle_flips_witness :
    (⟨[], "", false, some "u1", true⟩ : AppState).userId = some "u1"
    ∧ handleToggleTodo "default-app-id" ⟨[], "", false, some "u1", true⟩
        "x1singleUnder" true =
      (⟨[], "", false, some "u1", true⟩,
       [Request.update (toggleDocPath "default-app-id" "u1" "x1singleUnder")
         ⟨none, some false⟩]) :=
  ⟨rfl, c2_toggle_flips "default-app-id" _ "u1" "x1singleUnder" true rfl⟩

/-- C3: with an identity present and a trim-non-empty input, `handleAddTodo`
issues exactly one create request against the items collection, whose fields
are the (trimmed) text together with `completed = false`, whatever the
outcome of the awaited call. -/
theorem c3_add_creates (appId : String) (s : AppState) (uid : String) (ok : Bool)
    (h1 : jsTrim s.newTodo ≠ "") (h2 : s.userId = some uid) :
    (handleAddTodo appId s ok).2 =
      [Request.create (addCollectionPath appId uid) ⟨jsTrim s.newTodo, false⟩] := by
  cases ok <;> simp [handleAddTodo, h1, h2]

/-- C3 witness: adding `"buy milk"` with identity `"u1"` issues exactly one
create request with `completed = false`. -/
theorem c3_add_creates_witness :
    jsTrim (⟨[], "buy milk", false, some "u1", true⟩ : AppState).newTodo ≠ ""
    ∧ (⟨[], "buy milk", false, some "u1", true⟩ : AppState).userId = some "u1"
    ∧ (handleAddTodo "default-app-id" ⟨[], "buy milk", false, some "u1", true⟩ true).2 =
      [Request.create (addCollectionPath "default-app-id" "u1")
        ⟨jsTrim "buy milk", false⟩] :=
  ⟨by decide, rfl,
    c3_add_creates "default-app-id" _ "u1" true (by decide) rfl⟩

/-- C4: when the input is empty after trimming, `handleAddTodo` issues no
request and changes no state, whether or not an identity is present. -/
theorem c4_add_empty_noop (appId : String) (s : AppState) (ok : Bool)
    (h : jsTrim s.newTodo = "") :
    handleAddTodo appId s ok = (s, []) := by
  simp [handleAddTodo, h]

/-- C4 witness: adding `"   "` is a no-op even with an identity present. -/
theorem c4_add_empty_noop_witness :
    jsTrim (⟨[], "   ", false, some "u1", true⟩ : AppState).newTodo = ""
    ∧ handleAddTodo "default-app-id" ⟨[], "   ", false, some "u1", true⟩ true =
      (⟨[], "   ", false, some "u1", true⟩, []) :=
  ⟨by decide, c4_add_empty_noop "default-app-id" _ true (by decide)⟩

/-- C5: while no identity is present, add, toggle and delete are all no-ops:
the state is unchanged and no request is issued (the embedded handlers are
total functions, so no exception escapes). -/
theorem c5_no_identity_noop (appId : String) (s : AppState) (ok : Bool)
    (id : String) (cc : Bool) (h : s.userId = none) :
    handleAddTodo appId s ok = (s, [])
    ∧ handleToggleTodo appId s id cc = (s, [])
    ∧ handleDeleteTodo appId s id = (s, []) := by
  refine ⟨?_, ?_, ?_⟩
  · by_cases hif : jsTrim s.newTodo = "" <;> simp [handleAddTodo, h, hif]
  · simp [handleToggleTodo, h]
  · simp [handleDeleteTodo, h]

/-- C5 witness: with no identity, adding `"buy milk"`, toggling and deleting
all issue no request and change nothing. -/
theorem c5_no_identity_noop_witness :
    (⟨[], "buy milk", false, none, true⟩ : AppState).userId = none
    ∧ handleAddTodo "default-app-id" ⟨[], "buy milk", false, none, true⟩ true =
      (⟨[], "buy milk", false, none, true⟩, [])
    ∧ handleToggleTodo "default-app-id" ⟨[], "buy milk", false, none, true⟩ "x1" true =
      (⟨[], "buy milk", false, none, true⟩, [])
    ∧ handleDeleteTodo "default-app-id" ⟨[], "buy milk", false, none, true⟩ "x1" =
      (⟨[], "buy milk", false, none, true⟩, []) :=
  ⟨rfl, c5_no_identity_noop "default-app-id" _ true "x1" true rfl⟩

/-- C6: with an identity present, the path the subscription is opened on,
the collection path used by create, and the document paths used by update
and delete all agree on the same collection path, deterministically derived
from the application identifier and the identity. -/
theorem c6_path_consistency (appId uid id : String) (s : AppState)
    (h1 : s.authReady = true) (h2 : s.userId = some uid) :
    dataFetchSubscription appId s = some (addCollectionPath appId uid)
    ∧ subscribeCollectionPath appId uid = addCollectionPath appId uid
    ∧ toggleDocPath appId uid id = addCollectionPath appId uid ++ [id]
    ∧ deleteDocPath appId uid id = addCollectionPath appId uid ++ [id]
    ∧ addCollectionPath appId uid = ["artifacts", appId, "users", uid, "todos"] := by
  refine ⟨?_, ?_, ?_, ?_, ?_⟩ <;>
    simp [dataFetchSubscription, h1, h2, subscribeCollectionPath,
      addCollectionPath, toggleDocPath, deleteDocPath]

/-- C6 witness: the four paths agree at a concrete identifier and identity. -/
theorem c6_path_consistency_witness :
    (⟨[], "", false, some "u1", true⟩ : AppState).authReady = true
    ∧ (⟨[], "", false, some "u1", true⟩ : AppState).userId = some "u1"
    ∧ (dataFetchSubscription "default-app-id" ⟨[], "", false, some "u1", true⟩ =
        some (addCollectionPath "default-app-id" "u1")
      ∧ subscribeCollectionPath "default-app-id" "u1" = addCollectionPath "default-app-id" "u1"
      ∧ toggleDocPath "default-app-id" "u1" "x1" = addCollectionPath "default-app-id" "u1" ++ ["x1"]
      ∧ deleteDocPath "default-app-id" "u1" "x1" = addCollectionPath "default-app-id" "u1" ++ ["x1"]
      ∧ addCollectionPath "default-app-id" "u1" =
        ["artifacts", "default-app-id", "users", "u1", "todos"]) :=
  ⟨rfl, rfl, c6_path_consistency "default-app-id" "u1" "x1" _ rfl rfl⟩

/-- C7: when a no-identity notification arrives and the attempted sign-in
fails, the session is marked ready while the identity stays absent, exactly
one sign-in request was issued (no retry), nothing else of the state
changes, and on the resulting state add, toggle and delete are all no-ops. -/
theorem c7_signin_failure_ready_without_identity (s : AppState)
    (tok : Option String) (appId id : String) (ok cc : Bool)
    (h : s.userId = none) :
    onAuthStateChangedCallback s none tok true =
      ({ s with authReady := true },
       [(match tok with
         | some t => AuthRequest.signInWithCustomToken t
         | none => AuthRequest.signInAnonymously)])
    ∧ ({ s with authReady := true } : AppState).userId = none
    ∧ handleAddTodo appId { s with authReady := true } ok =
        ({ s with authReady := true }, [])
    ∧ handleToggleTodo appId { s with authReady := true } id cc =
        ({ s with authReady := true }, [])
    ∧ handleDeleteTodo appId { s with authReady := true } id =
        ({ s with authReady := true }, []) := by
  have hu : ({ s with authReady := true } : AppState).userId = none := h
  refine ⟨rfl, hu, ?_, ?_, ?_⟩
  · by_cases hif : jsTrim s.newTodo = "" <;> simp [handleAddTodo, h, hif]
  · simp [handleToggleTodo, h]
  · simp [handleDeleteTodo, h]

/-- C7 witness: in the initial state with no token, a failing anonymous
sign-in leaves the session ready with no identity and one sign-in request,
and the mutations on the resulting state are no-ops. -/
theorem c7_signin_failure_ready_without_identity_witness :
    (⟨[], "buy milk", true, none, false⟩ : AppState).userId = none
    ∧ (onAuthStateChangedCallback ⟨[], "buy milk", true, none, false⟩ none none true =
        (⟨[], "buy milk", true, none, true⟩, [AuthRequest.signInAnonymously])
      ∧ (⟨[], "buy milk", true, none, true⟩ : AppState).userId = none
      ∧ handleAddTodo "default-app-id" ⟨[], "buy milk", true, none, true⟩ true =
          (⟨[], "buy milk", true, none, true⟩, [])
      ∧ handleToggleTodo "default-app-id" ⟨[], "buy milk", true, none, true⟩ "x1" true =
          (⟨[], "buy milk", true, none, true⟩, [])
      ∧ handleDeleteTodo "default-app-id" ⟨[], "buy milk", true, none, true⟩ "x1" =
          (⟨[], "buy milk", true, none, true⟩, [])) :=
  ⟨rfl, c7_signin_failure_ready_without_identity _ none "default-app-id" "x1"
    true true rfl⟩

/-- C8: the subscription error callback sets the loading flag to false,
leaves the rest of the state, in particular the mirror, unchanged, and
issues no request (so no reconnect is attempted). -/
theorem c8_subscription_error_keeps_mirror (s : AppState) :
    onSnapshotError s = ({ s with loading := false }, [])
    ∧ (onSnapshotError s).1.todos = s.todos
    ∧ (onSnapshotError s).1.loading = false := by
  refine ⟨rfl, rfl, rfl⟩

/-- C9: with the add guard satisfied, the input field is cleared exactly
when the create request succeeds; on a failed create the whole state, in
particular the typed text, is unchanged. -/
theorem c9_input_cleared_only_on_success (appId : String) (s : AppState)
    (uid : String) (h1 : jsTrim s.newTodo ≠ "") (h2 : s.userId = some uid) :
    (handleAddTodo appId s true).1.newTodo = ""
    ∧ (handleAddTodo appId s false).1 = s := by
  refine ⟨?_, ?_⟩ <;> simp [handleAddTodo, h1, h2]

/-- C9 witness: a failed add of `"buy milk"` keeps the state (and the typed
text); a successful one clears the input. -/
theorem c9_input_cleared_only_on_success_witness :
    jsTrim (⟨[], "buy milk", false, some "u1", true⟩ : AppState).newTodo ≠ ""
    ∧ (⟨[], "buy milk", false, some "u1", true⟩ : AppState).userId = some "u1"
    ∧ ((handleAddTodo "default-app-id" ⟨[], "buy milk", false, some "u1", true⟩ true).1.newTodo = ""
      ∧ (handleAddTodo "default-app-id" ⟨[], "buy milk", false, some "u1", true⟩ false).1 =
        ⟨[], "buy milk", false, some "u1", true⟩) :=
  ⟨by decide, rfl,
    c9_input_cleared_only_on_success "default-app-id" _ "u1" (by decide) rfl⟩

/-- C10: with the add guard satisfied, the create request stores the trimmed
input as the text, and that text is a trim fixed point (no leading or
trailing whitespace) and non-empty. -/
theorem c10_created_text_is_trimmed (appId : String) (s : AppState)
    (uid : String) (ok : Bool) (h1 : jsTrim s.newTodo ≠ "")
    (h2 : s.userId = some uid) :
    (handleAddTodo appId s ok).2 =
      [Request.create (addCollectionPath appId uid) ⟨jsTrim s.newTodo, false⟩]
    ∧ jsTrim (jsTrim s.newTodo) = jsTrim s.newTodo
    ∧ jsTrim s.newTodo ≠ "" := by
  refine ⟨?_, jsTrim_idem _, h1⟩
  cases ok <;> simp [handleAddTodo, h1, h2]

/-- C10 witness: adding `"  buy milk "` stores `jsTrim "  buy milk "`, a
non-empty trim fixed point, not the raw input. -/
theorem c10_created_text_is_trimmed_witness :
    jsTrim (⟨[], "  buy milk ", false, some "u1", true⟩ : AppState).newTodo ≠ ""
    ∧ (⟨[], "  buy milk ", false, some "u1", true⟩ : AppState).userId = some "u1"
    ∧ ((handleAddTodo "default-app-id" ⟨[], "  buy milk ", false, some "u1", true⟩ true).2 =
        [Request.create (addCollectionPath "default-app-id" "u1")
          ⟨jsTrim "  buy milk ", false⟩]
      ∧ jsTrim (jsTrim "  buy milk ") = jsTrim "  buy milk "
      ∧ jsTrim "  buy milk " ≠ "") :=
  ⟨by decide, rfl,
    c10_created_text_is_trimmed "default-app-id" _ "u1" true (by decide) rfl⟩

end TodoApp
